import Mathlib

/-!
Shallow embedding of the SlideSage-AI sources:
  src/ppt_data_preprocessing.py   (class PPTDataPreprocessing)
  src/ppt_summarization_bedrock.py
  src/ppt_summarization_openai.py

A presentation is modelled as a list of slides, a slide as a list of
shapes; a shape is a text frame (carrying the text the pptx library
would report), a table (carrying the raw cell texts, row by row), or
some other shape kind.  The pptx parsing library, pandas, the file
system and the two network providers are external collaborators; the
file system and the providers are passed in as an explicit environment
record, and the pandas DataFrame rendering used by the flat-string
extractor is passed in as a function parameter, so every theorem below
holds for an arbitrary rendering.

Python exceptions are modelled with Except, a caught exception turning
into the Option-typed null-equivalent the handlers return.  The builtin
str.strip is modelled by pyStrip (drop whitespace at both ends) and
str.endswith by pyEndsWith, both executable on character lists.
-/

namespace SlideSage

/-- A table row: the list of cell texts. -/
abbrev Row := List String

/-- A raw table as read from a slide: its rows of cell text. -/
abbrev RawTable := List Row

/-- A shape on a slide, as exposed by the pptx library: a text frame,
a table, or any other kind of shape. -/
inductive Shape where
  | textFrame (text : String)
  | table (rows : RawTable)
  | other
deriving DecidableEq, Repr

/-- A slide: its ordered list of shapes. -/
structure Slide where
  shapes : List Shape
deriving DecidableEq, Repr

/-- A loaded presentation: its ordered list of slides. -/
structure Presentation where
  slides : List Slide
deriving DecidableEq, Repr

/-- Model of the pandas DataFrame built by
pd.DataFrame with data equal to the rows after the first and columns
equal to the first row. -/
structure DataFrame where
  columns : Row
  body : List Row
deriving DecidableEq, Repr

/-- Model of the Python builtin str.strip: remove whitespace from both
ends of the string. -/
def pyStrip (s : String) : String :=
  ⟨(((s.data.dropWhile Char.isWhitespace).reverse.dropWhile Char.isWhitespace).reverse)⟩

/-- Model of the Python builtin str.endswith. -/
def pyEndsWith (s suffix : String) : Bool :=
  suffix.data.isSuffixOf s.data

/-- Embedding of PPTDataPreprocessing.extract_tables_from_slide: for
every shape that is a table, collect the cell texts of all rows; if the
collected row list is non-empty, build a DataFrame whose columns are the
first row and whose body is the remaining rows. -/
def extract_tables_from_slide (sl : Slide) : List DataFrame :=
  sl.shapes.filterMap fun s =>
    match s with
    | Shape.table rows => if rows ≠ [] then some ⟨rows.headD [], rows.tail⟩ else none
    | _ => none

/-- The text items a slide contributes: the stripped text of every
text-frame shape, in shape order.  Both extract_content_from_ppt and
preprocess_ppt collect exactly this list. -/
def slideTexts (sl : Slide) : List String :=
  sl.shapes.filterMap fun s =>
    match s with
    | Shape.textFrame t => some (pyStrip t)
    | _ => none

/-- The per-slide content list built inside extract_content_from_ppt:
stripped text-frame texts followed by the rendered tables, where render
stands for the pandas to_string call. -/
def slideContentList (render : DataFrame → String) (sl : Slide) : List String :=
  slideTexts sl ++ (extract_tables_from_slide sl).map render

/-- The loop body of extract_content_from_ppt: walk the slides with
their 0-based index, emit a block for every slide whose content list is
non-empty, labelled with the 1-based slide index. -/
def overallContent (render : DataFrame → String) : Nat → List Slide → List String
  | _, [] => []
  | idx, sl :: rest =>
    if slideContentList render sl = [] then overallContent render (idx + 1) rest
    else ("Slide " ++ toString (idx + 1) ++ ":\n"
            ++ String.intercalate "\n" (slideContentList render sl))
          :: overallContent render (idx + 1) rest

/-- Embedding of PPTDataPreprocessing.extract_content_from_ppt. -/
def extract_content_from_ppt (render : DataFrame → String) (p : Presentation) : String :=
  String.intercalate "\n\n" (overallContent render 0 p.slides)

/-- Whether a slide contributes a block to extract_content_from_ppt:
it has a text frame or a table with at least one row. -/
def slideHasContent (sl : Slide) : Bool :=
  sl.shapes.any fun s =>
    match s with
    | Shape.textFrame _ => true
    | Shape.table rows => !rows.isEmpty
    | Shape.other => false

/-- The 1-based slide numbers of the blocks emitted by
extract_content_from_ppt, starting from 0-based index idx. -/
def emittedNumbersFrom : Nat → List Slide → List Nat
  | _, [] => []
  | idx, sl :: rest =>
    if slideHasContent sl then (idx + 1) :: emittedNumbersFrom (idx + 1) rest
    else emittedNumbersFrom (idx + 1) rest

/-- The 1-based slide numbers of the blocks emitted by
extract_content_from_ppt. -/
def emittedSlideNumbers (p : Presentation) : List Nat :=
  emittedNumbersFrom 0 p.slides

/-- The raw tables a slide contributes in preprocess_ppt: for every
table shape, its rows of stripped cell texts (a table with no rows
still contributes an empty row list). -/
def slideTables (sl : Slide) : List RawTable :=
  sl.shapes.filterMap fun s =>
    match s with
    | Shape.table rows => some (rows.map fun r => r.map pyStrip)
    | _ => none

/-- The structured record preprocess_ppt builds for one slide. -/
structure SlideRecord where
  title : String
  content : String
  tables : List RawTable
deriving DecidableEq, Repr

/-- The per-slide step of preprocess_ppt: skip the slide when it has
neither text items nor tables; otherwise take the first text item as
title (sentinel when there is none), join the remaining text items with
single spaces as content, and keep the raw tables. -/
def preprocessSlide (sl : Slide) : Option SlideRecord :=
  if slideTexts sl ≠ [] ∨ slideTables sl ≠ [] then
    some ⟨(slideTexts sl).headD "Untitled Slide",
          if 1 < (slideTexts sl).length
            then String.intercalate " " ((slideTexts sl).drop 1) else "",
          slideTables sl⟩
  else none

/-- Embedding of PPTDataPreprocessing.preprocess_ppt. -/
def preprocess_ppt (p : Presentation) : List SlideRecord :=
  p.slides.filterMap preprocessSlide

/-- A Python dict holding slide data, as consumed by the two prompt
generators: each expected key may be absent (none models a missing
key). -/
structure PyRecord where
  title : Option String
  content : Option String
  text : Option String
  tables : Option (List RawTable)
deriving DecidableEq, Repr

/-- The dict preprocess_ppt hands to the summarization entry points:
keys title, content and tables are present, key text is not. -/
def toPy (r : SlideRecord) : PyRecord :=
  ⟨some r.title, some r.content, none, some r.tables⟩

/-- The Headers and Rows block both prompt generators emit for one
table, given its first row and the remaining rows. -/
def tableBlockText (hd : Row) (tl : List Row) : String :=
  "Headers: " ++ String.intercalate ", " hd ++ "\nRows:\n"
    ++ String.intercalate "\n" (tl.map (String.intercalate ", ")) ++ "\n"

/-- The tables loop shared by both prompt generators: append a block
per table; indexing the first row of an empty table raises IndexError. -/
def tablesText (acc : String) : List RawTable → Except String String
  | [] => Except.ok acc
  | [] :: _ => Except.error "IndexError: list index out of range"
  | (hd :: tl) :: ts => tablesText (acc ++ tableBlockText hd tl) ts

/-- Opening instruction of the openai-variant prompt. -/
def openaiPreamble : String :=
  "You are a report summarizer. Please provide a detailed and easy-to-read summary of the following presentation:\n\n"

/-- Closing instruction of the openai-variant prompt. -/
def openaiClosing : String :=
  "Summarize the key points from all slides in a coherent and natural-language manner. Provide actionable insights and highlight important trends or patterns."

/-- Opening instruction of the bedrock-variant prompt. -/
def bedrockPreamble : String :=
  "Analyze the following email deliverability data and provide a detailed, natural-language summary:\n\n"

/-- Closing instruction of the bedrock-variant prompt. -/
def bedrockClosing : String :=
  "Based on the data provided, generate a detailed and easy-to-read summary. Explain deliverability performance, engagement metrics, and patterns in natural language without repeating the tabular data verbatim."

/-- The per-record text the openai-variant generate_prompt appends:
reads the keys title, content and tables of the dict (a missing key
raises KeyError), emits the title line, the content line when the
content is non-empty, and the tables block when the table list is
non-empty. -/
def openaiFragment (slide : PyRecord) : Except String String :=
  match slide.title with
  | none => Except.error "KeyError: title"
  | some title =>
    match slide.content with
    | none => Except.error "KeyError: content"
    | some content =>
      match slide.tables with
      | none => Except.error "KeyError: tables"
      | some tables =>
        match tablesText "" tables with
        | Except.error e => Except.error e
        | Except.ok tb =>
          Except.ok ("Slide Title: " ++ title ++ "\n"
            ++ (if content ≠ "" then "Slide Content: " ++ content ++ "\n" else "")
            ++ (if tables ≠ [] then "Slide Tables:\n" ++ tb else "")
            ++ "\n")

/-- The per-record text the bedrock-variant generate_prompt appends:
reads the key text of the dict (a missing key raises KeyError) and,
when the dict holds a non-empty table list under key tables, the
tables block. -/
def bedrockFragment (entry : PyRecord) : Except String String :=
  match entry.text with
  | none => Except.error "KeyError: text"
  | some text =>
    match tablesText "" (entry.tables.getD []) with
    | Except.error e => Except.error e
    | Except.ok tb =>
      Except.ok ("Slide Title: " ++ text ++ "\n"
        ++ (if entry.tables.getD [] ≠ [] then "Here is the tabular data:\n" ++ tb else "")
        ++ "\n")

/-- The accumulation loop shared by both prompt generators: append the
fragment of each record in order, stopping at the first raised
exception. -/
def buildPrompt (frag : PyRecord → Except String String) (acc : String) :
    List PyRecord → Except String String
  | [] => Except.ok acc
  | r :: rs =>
    match frag r with
    | Except.error e => Except.error e
    | Except.ok f => buildPrompt frag (acc ++ f) rs

/-- Embedding of generate_prompt from src/ppt_summarization_openai.py:
any exception inside the loop is caught, logged and turned into the
null-equivalent none. -/
def generate_prompt_openai (slide_data : List PyRecord) : Option String :=
  match buildPrompt openaiFragment openaiPreamble slide_data with
  | Except.error _ => none
  | Except.ok p => some (p ++ openaiClosing)

/-- Embedding of generate_prompt from src/ppt_summarization_bedrock.py:
any exception inside the loop is re-raised as a RuntimeError. -/
def generate_prompt_bedrock (data : List PyRecord) : Except String String :=
  match buildPrompt bedrockFragment bedrockPreamble data with
  | Except.error e => Except.error ("RuntimeError: Error generating prompt: " ++ e)
  | Except.ok p => Except.ok (p ++ bedrockClosing)

/-- An entry consumed by split_prompt: the dict shape the function
expects, with the key text present and the key tables optional (it is
read with dict.get). -/
structure SplitEntry where
  text : String
  tables : Option (List RawTable)
deriving DecidableEq, Repr

/-- The serialized text split_prompt builds for one entry: the title
line, one comma-joined line per table row, and a trailing blank line. -/
def entryText (e : SplitEntry) : String :=
  ("Slide Title: " ++ e.text ++ "\n")
    ++ String.join ((e.tables.getD []).map fun t =>
        String.join (t.map fun row => String.intercalate ", " row ++ "\n"))
    ++ "\n"

/-- The loop body of split_prompt: if appending the next serialized
entry would push the running buffer past max_chars, flush the buffer as
a chunk (even when it is empty) and restart the buffer from the entry;
otherwise append the entry to the buffer. -/
def splitStep (max_chars : Nat) (st : List String × String) (e : SplitEntry) :
    List String × String :=
  let t := entryText e
  if max_chars < st.2.length + t.length then (st.1 ++ [st.2], t) else (st.1, st.2 ++ t)

/-- Embedding of split_prompt from src/ppt_summarization_bedrock.py:
fold the entries through splitStep and flush the final buffer when it
is non-empty. -/
def split_prompt (data : List SplitEntry) (max_chars : Nat) : List String :=
  let st := data.foldl (splitStep max_chars) ([], "")
  if st.2 ≠ "" then st.1 ++ [st.2] else st.1

/-- The external collaborators of one summarization run: the
presentation storage root, the directory listing for the report
directory, the presentation loader, the bedrock client constructor and
the two provider calls.  An error value models a raised exception. -/
structure Env where
  baseDir : String
  listdir : Except Unit (List String)
  load : String → Except Unit Presentation
  clientInit : Except Unit Unit
  bedrockInvoke : String → Except Unit (List String)
  chatComplete : String → Except Unit String

/-- The file lookup both entry points perform: the first file of the
listing whose name ends in .pptx. -/
def findPptx (files : List String) : Option String :=
  files.find? fun f => pyEndsWith f ".pptx"

/-- Embedding of summarize_with_bedrock_titan.  The first component is
the value the Python function returns; the second records whether the
model invocation (query_bedrock_model) was reached.  The function body
never executes a return statement after the query, so the returned
value is the implicit None on every path. -/
def summarize_with_bedrock_titan (env : Env) (reportId : String) :
    Option (List String) × Bool :=
  match env.listdir with
  | Except.error _ => (none, false)
  | Except.ok files =>
    match findPptx files with
    | none => (none, false)
    | some f =>
      match env.load (env.baseDir ++ "/" ++ reportId ++ "/" ++ f) with
      | Except.error _ => (none, false)
      | Except.ok pres =>
        let slide_data := preprocess_ppt pres
        if slide_data = [] then (none, false)
        else
          match env.clientInit with
          | Except.error _ => (none, false)
          | Except.ok _ =>
            match generate_prompt_bedrock (slide_data.map toPy) with
            | Except.error _ => (none, false)
            | Except.ok prompt =>
              match env.bedrockInvoke prompt with
              | Except.error _ => (none, true)
              | Except.ok _ => (none, true)

/-- Embedding of ppt_summarization from src/ppt_summarization_openai.py.
The first component is the returned value; the second records whether
the chat completion call was reached.  When generate_prompt returns
None, the following subscript of None raises and the outer handler
returns None; when the provider content is empty, the falsy check on
the summary returns None. -/
def ppt_summarization (env : Env) (reportId : String) : Option String × Bool :=
  match env.listdir with
  | Except.error _ => (none, false)
  | Except.ok files =>
    match findPptx files with
    | none => (none, false)
    | some f =>
      match env.load (env.baseDir ++ "/" ++ reportId ++ "/" ++ f) with
      | Except.error _ => (none, false)
      | Except.ok pres =>
        let slide_data := preprocess_ppt pres
        if slide_data = [] then (none, false)
        else
          match generate_prompt_openai (slide_data.map toPy) with
          | none => (none, false)
          | some prompt =>
            match env.chatComplete prompt with
            | Except.error _ => (none, true)
            | Except.ok content =>
              if content ≠ "" then (some content, true) else (none, true)

/-- Whether a shape is neither a text frame nor a table. -/
def shapeIsOther : Shape → Bool
  | Shape.other => true
  | _ => false

/-- A concrete presentation with a contentless middle slide, used to
exhibit the slide numbering of extract_content_from_ppt. -/
def gapDeck : Presentation :=
  ⟨[⟨[Shape.textFrame "A"]⟩, ⟨[Shape.other]⟩, ⟨[Shape.textFrame "B"]⟩]⟩

/-- A concrete presentation whose single slide holds two text frames. -/
def sampleDeck : Presentation :=
  ⟨[⟨[Shape.textFrame "Q3 Report", Shape.textFrame "Revenue grew"]⟩]⟩

/-- An environment in which every step succeeds: the report directory
holds a pptx file, it loads to sampleDeck, the client construction
succeeds, and both providers answer. -/
def goodEnv : Env :=
  ⟨"pres", Except.ok ["deck.pptx"], fun _ => Except.ok sampleDeck, Except.ok (),
   fun _ => Except.ok ["Titan summary."], fun _ => Except.ok "Chat summary."⟩

/-- An environment whose report directory holds no pptx file. -/
def noPptxEnv : Env :=
  ⟨"pres", Except.ok ["notes.txt", "chart.png"], fun _ => Except.error (),
   Except.error (), fun _ => Except.error (), fun _ => Except.error ()⟩

/-- An environment whose pptx file loads to a presentation from which
preprocess_ppt extracts nothing. -/
def emptyDeckEnv : Env :=
  ⟨"pres", Except.ok ["deck.pptx"], fun _ => Except.ok ⟨[⟨[Shape.other]⟩]⟩, Except.ok (),
   fun _ => Except.ok ["Titan summary."], fun _ => Except.ok "Chat summary."⟩

/-!  Helper lemmas. -/

theorem string_ne_empty_of_length_pos {s : String} (h : 0 < s.length) : s ≠ "" := by
  intro he
  subst he
  simp at h

theorem entryText_length_pos (e : SplitEntry) : 0 < (entryText e).length := by
  rw [entryText, String.length_append]
  have h1 : ("\n" : String).length = 1 := rfl
  omega

theorem entryText_ne_empty (e : SplitEntry) : entryText e ≠ "" :=
  string_ne_empty_of_length_pos (entryText_length_pos e)

theorem foldl_splitStep_chunks (mc : Nat) :
    ∀ (l : List SplitEntry) (cs : List String) (cur : String),
      ∃ tl cur2, l.foldl (splitStep mc) (cs, cur) = (cs ++ tl, cur2) := by
  intro l
  induction l with
  | nil => exact fun cs cur => ⟨[], cur, by simp⟩
  | cons e es ih =>
    intro cs cur
    by_cases h : mc < cur.length + (entryText e).length
    · obtain ⟨tl, c2, hrec⟩ := ih (cs ++ [cur]) (entryText e)
      refine ⟨[cur] ++ tl, c2, ?_⟩
      rw [List.foldl_cons]
      rw [show splitStep mc (cs, cur) e = (cs ++ [cur], entryText e) from by
        simp [splitStep, h]]
      rw [hrec, List.append_assoc]
    · obtain ⟨tl, c2, hrec⟩ := ih cs (cur ++ entryText e)
      refine ⟨tl, c2, ?_⟩
      rw [List.foldl_cons]
      rw [show splitStep mc (cs, cur) e = (cs, cur ++ entryText e) from by
        simp [splitStep, h]]
      exact hrec

theorem str_empty_append (s : String) : "" ++ s = s := rfl

theorem hasContent_false_iff (sl : Slide) :
    slideHasContent sl = false
      ↔ slideTexts sl = [] ∧ extract_tables_from_slide sl = [] := by
  simp only [slideHasContent, List.any_eq_false, slideTexts, extract_tables_from_slide,
    List.filterMap_eq_nil_iff]
  constructor
  · intro h
    constructor <;> intro a ha <;> have hx := h a ha <;> cases a <;> simp_all
  · rintro ⟨h1, h2⟩ a ha
    have t1 := h1 a ha
    have t2 := h2 a ha
    cases a <;> simp_all

theorem contentList_eq_nil_iff (render : DataFrame → String) (sl : Slide) :
    slideContentList render sl = [] ↔ slideHasContent sl = false := by
  rw [slideContentList, List.append_eq_nil, List.map_eq_nil_iff]
  exact (hasContent_false_iff sl).symm

theorem allOther_texts (sl : Slide) (h : sl.shapes.all shapeIsOther = true) :
    slideTexts sl = [] := by
  rw [slideTexts, List.filterMap_eq_nil_iff]
  intro a ha
  have := List.all_eq_true.mp h a ha
  cases a <;> simp_all [shapeIsOther]

theorem allOther_slideTables (sl : Slide) (h : sl.shapes.all shapeIsOther = true) :
    slideTables sl = [] := by
  rw [slideTables, List.filterMap_eq_nil_iff]
  intro a ha
  have := List.all_eq_true.mp h a ha
  cases a <;> simp_all [shapeIsOther]

theorem allOther_extract (sl : Slide) (h : sl.shapes.all shapeIsOther = true) :
    extract_tables_from_slide sl = [] := by
  rw [extract_tables_from_slide, List.filterMap_eq_nil_iff]
  intro a ha
  have := List.all_eq_true.mp h a ha
  cases a <;> simp_all [shapeIsOther]

theorem allOther_noContent (sl : Slide) (h : sl.shapes.all shapeIsOther = true) :
    slideHasContent sl = false :=
  (hasContent_false_iff sl).mpr ⟨allOther_texts sl h, allOther_extract sl h⟩

theorem mem_emittedNumbersFrom :
    ∀ (l : List Slide) (idx n : Nat),
      n ∈ emittedNumbersFrom idx l
        ↔ ∃ k, k < l.length ∧ n = idx + k + 1 ∧ slideHasContent (l.getD k ⟨[]⟩) = true := by
  intro l
  induction l with
  | nil =>
    intro idx n
    simp [emittedNumbersFrom]
  | cons sl rest ih =>
    intro idx n
    by_cases h : slideHasContent sl
    · rw [show emittedNumbersFrom idx (sl :: rest)
          = (idx + 1) :: emittedNumbersFrom (idx + 1) rest from by
        simp only [emittedNumbersFrom, if_pos h]]
      rw [List.mem_cons, ih (idx + 1) n]
      constructor
      · rintro (rfl | ⟨k, hk, rfl, hc⟩)
        · exact ⟨0, by simp, by omega, by simpa using h⟩
        · refine ⟨k + 1, by simpa using Nat.succ_lt_succ hk, by omega, ?_⟩
          simpa using hc
      · rintro ⟨k, hk, rfl, hc⟩
        cases k with
        | zero => left; omega
        | succ k2 =>
          right
          refine ⟨k2, ?_, by omega, ?_⟩
          · simpa using hk
          · simpa using hc
    · rw [show emittedNumbersFrom idx (sl :: rest)
          = emittedNumbersFrom (idx + 1) rest from by
        simp only [emittedNumbersFrom, if_neg h]]
      rw [ih (idx + 1) n]
      constructor
      · rintro ⟨k, hk, rfl, hc⟩
        refine ⟨k + 1, by simpa using Nat.succ_lt_succ hk, by omega, ?_⟩
        simpa using hc
      · rintro ⟨k, hk, rfl, hc⟩
        cases k with
        | zero =>
          rw [List.getD_cons_zero] at hc
          exact absurd hc h
        | succ k2 =>
          refine ⟨k2, ?_, by omega, ?_⟩
          · simpa using hk
          · simpa using hc

theorem sorted_emittedNumbersFrom :
    ∀ (l : List Slide) (idx : Nat), List.Sorted (· < ·) (emittedNumbersFrom idx l) := by
  intro l
  induction l with
  | nil =>
    intro idx
    simp [emittedNumbersFrom]
  | cons sl rest ih =>
    intro idx
    by_cases h : slideHasContent sl
    · rw [show emittedNumbersFrom idx (sl :: rest)
          = (idx + 1) :: emittedNumbersFrom (idx + 1) rest from by
        simp only [emittedNumbersFrom, if_pos h]]
      rw [List.sorted_cons]
      refine ⟨?_, ih (idx + 1)⟩
      intro b hb
      rw [mem_emittedNumbersFrom] at hb
      obtain ⟨k, _, rfl, _⟩ := hb
      omega
    · rw [show emittedNumbersFrom idx (sl :: rest)
          = emittedNumbersFrom (idx + 1) rest from by
        simp only [emittedNumbersFrom, if_neg h]]
      exact ih (idx + 1)

theorem emitted_blocks_labelled (render : DataFrame → String) :
    ∀ (l : List Slide) (idx : Nat),
      List.Forall₂ (fun n b => ∃ r, b = "Slide " ++ toString n ++ ":\n" ++ r)
        (emittedNumbersFrom idx l) (overallContent render idx l) := by
  intro l
  induction l with
  | nil =>
    intro idx
    simp [emittedNumbersFrom, overallContent]
  | cons sl rest ih =>
    intro idx
    by_cases h : slideHasContent sl
    · have hnc : ¬ slideContentList render sl = [] := by
        rw [contentList_eq_nil_iff]
        simp [h]
      rw [show emittedNumbersFrom idx (sl :: rest)
          = (idx + 1) :: emittedNumbersFrom (idx + 1) rest from by
        simp only [emittedNumbersFrom, if_pos h]]
      rw [show overallContent render idx (sl :: rest)
          = ("Slide " ++ toString (idx + 1) ++ ":\n"
              ++ String.intercalate "\n" (slideContentList render sl))
            :: overallContent render (idx + 1) rest from by
        simp only [overallContent, if_neg hnc]]
      exact List.Forall₂.cons ⟨_, rfl⟩ (ih (idx + 1))
    · have hnc : slideContentList render sl = [] := by
        rw [contentList_eq_nil_iff]
        simpa using h
      rw [show emittedNumbersFrom idx (sl :: rest)
          = emittedNumbersFrom (idx + 1) rest from by
        simp only [emittedNumbersFrom, if_neg h]]
      rw [show overallContent render idx (sl :: rest)
          = overallContent render (idx + 1) rest from by
        simp only [overallContent, if_pos hnc]]
      exact ih (idx + 1)

theorem getD_append_length {α : Type} (l1 l2 : List α) (a d : α) :
    (l1 ++ a :: l2).getD l1.length d = a := by
  rw [List.getD_eq_getElem?_getD, List.getElem?_append_right (le_refl l1.length)]
  simp

theorem openaiFragment_error_of_missing (r : PyRecord)
    (h : r.title = none ∨ r.content = none ∨ r.tables = none) :
    ∃ e, openaiFragment r = Except.error e := by
  obtain ⟨t, c, tx, tb⟩ := r
  rcases h with h | h | h
  · simp only at h
    subst h
    exact ⟨_, rfl⟩
  · simp only at h
    subst h
    cases t with
    | none => exact ⟨_, rfl⟩
    | some tt => exact ⟨_, rfl⟩
  · simp only at h
    subst h
    cases t with
    | none => exact ⟨_, rfl⟩
    | some tt =>
      cases c with
      | none => exact ⟨_, rfl⟩
      | some cc => exact ⟨_, rfl⟩

theorem buildPrompt_error (frag : PyRecord → Except String String) :
    ∀ (l : List PyRecord) (acc : String) (r : PyRecord), r ∈ l →
      (∃ e, frag r = Except.error e) →
      ∃ e, buildPrompt frag acc l = Except.error e := by
  intro l
  induction l with
  | nil =>
    intro acc r hr
    exact absurd hr (List.not_mem_nil r)
  | cons x xs ih =>
    intro acc r hr he
    rcases List.mem_cons.mp hr with rfl | hmem
    · obtain ⟨e, hfe⟩ := he
      exact ⟨e, by simp [buildPrompt, hfe]⟩
    · cases hfx : frag x with
      | error e => exact ⟨e, by simp [buildPrompt, hfx]⟩
      | ok f =>
        obtain ⟨e, h2⟩ := ih (acc ++ f) r hmem he
        exact ⟨e, by simp [buildPrompt, hfx, h2]⟩

/-!  Claim theorems. -/

/-- C1: the claim says that whenever file lookup, extraction, prompt
construction and the provider call all succeed, each summarization
entry point returns the summary text from its provider call.  The code
refutes this for Variant A: in goodEnv every external step succeeds,
yet summarize_with_bedrock_titan returns none and never reaches the
model invocation, because its generate_prompt reads the dict key text
while the records built by preprocess_ppt carry the key title (the
KeyError is re-raised as a RuntimeError and swallowed by the outer
handler), and the function body has no return statement after the
query in any case.  Variant B returns the single completion content as
claimed. -/
theorem c1_bedrock_drops_summary :
    summarize_with_bedrock_titan goodEnv "r1" = (none, false)
    ∧ ppt_summarization goodEnv "r1" = (some "Chat summary.", true)
    ∧ generate_prompt_bedrock (preprocess_ppt sampleDeck |>.map toPy)
        = Except.error "RuntimeError: Error generating prompt: KeyError: text" :=
  ⟨rfl, rfl, rfl⟩

/-- C2 counterexample: on a record lacking the key title, the loop
inside the openai-variant generate_prompt raises KeyError, but the
function catches it and returns the null-equivalent none instead of
letting the exception escape — refuting the claim that it fails by
raising rather than returning a value. -/
theorem c2_counterexample :
    buildPrompt openaiFragment openaiPreamble [⟨none, some "c", none, some []⟩]
      = Except.error "KeyError: title"
    ∧ generate_prompt_openai [⟨none, some "c", none, some []⟩] = none :=
  ⟨rfl, rfl⟩

/-- C2 amended: for every input list containing a record that lacks
one of the expected keys title, content or tables, the openai-variant
generate_prompt returns the null-equivalent none; the internal
exception never escapes. -/
theorem c2_missing_key_returns_none
    (data : List PyRecord) (r : PyRecord) (hmem : r ∈ data)
    (hmiss : r.title = none ∨ r.content = none ∨ r.tables = none) :
    generate_prompt_openai data = none := by
  obtain ⟨e, he⟩ := buildPrompt_error openaiFragment data openaiPreamble r hmem
    (openaiFragment_error_of_missing r hmiss)
  simp [generate_prompt_openai, he]

/-- C2 witness. -/
theorem c2_witness :
    (⟨some "T", none, none, some []⟩ : PyRecord) ∈
        [toPy ⟨"A", "B", []⟩, ⟨some "T", none, none, some []⟩]
    ∧ generate_prompt_openai [toPy ⟨"A", "B", []⟩, ⟨some "T", none, none, some []⟩] = none :=
  ⟨by decide, c2_missing_key_returns_none _ ⟨some "T", none, none, some []⟩ (by decide)
    (Or.inr (Or.inl rfl))⟩

/-- C3 counterexample: in gapDeck the middle slide has no text frames
and no tables; extract_content_from_ppt emits blocks numbered 1 and 3,
not the contiguous 1 and 2 the claim asserts. -/
theorem c3_counterexample :
    emittedSlideNumbers gapDeck = [1, 3]
    ∧ emittedSlideNumbers gapDeck ≠ [1, 2]
    ∧ extract_content_from_ppt (fun _ => "") gapDeck = "Slide 1:\nA\n\nSlide 3:\nB" :=
  ⟨rfl, by decide, rfl⟩

/-- C3 amended: a slide with neither text frames nor tables contributes
no record to preprocess_ppt (removing it leaves the output unchanged)
and no block number to extract_content_from_ppt; the emitted block
numbers are exactly the 1-based original positions of the slides that
have content, in strictly increasing order, so gaps appear where slides
are skipped rather than the numbering staying contiguous. -/
theorem c3_skipped_slides_and_numbering
    (s1 s2 : List Slide) (sl : Slide) (p : Presentation) (render : DataFrame → String)
    (h : sl.shapes.all shapeIsOther = true) :
    preprocess_ppt ⟨s1 ++ sl :: s2⟩ = preprocess_ppt ⟨s1 ++ s2⟩
    ∧ (s1.length + 1) ∉ emittedSlideNumbers ⟨s1 ++ sl :: s2⟩
    ∧ List.Sorted (· < ·) (emittedSlideNumbers p)
    ∧ (∀ n, n ∈ emittedSlideNumbers p
        ↔ ∃ k, k < p.slides.length ∧ n = k + 1
            ∧ slideHasContent (p.slides.getD k ⟨[]⟩) = true)
    ∧ extract_content_from_ppt render p
        = String.intercalate "\n\n" (overallContent render 0 p.slides)
    ∧ List.Forall₂ (fun n b => ∃ r, b = "Slide " ++ toString n ++ ":\n" ++ r)
        (emittedSlideNumbers p) (overallContent render 0 p.slides) := by
  refine ⟨?_, ?_, sorted_emittedNumbersFrom p.slides 0, ?_, rfl,
    emitted_blocks_labelled render p.slides 0⟩
  · have hnone : preprocessSlide sl = none := by
      simp [preprocessSlide, allOther_texts sl h, allOther_slideTables sl h]
    simp [preprocess_ppt, List.filterMap_append, List.filterMap_cons, hnone]
  · rw [emittedSlideNumbers, mem_emittedNumbersFrom]
    rintro ⟨k, hk, hkeq, hc⟩
    have hke : k = s1.length := by omega
    subst hke
    rw [getD_append_length] at hc
    rw [allOther_noContent sl h] at hc
    cases hc
  · intro n
    rw [emittedSlideNumbers, mem_emittedNumbersFrom]
    simp

/-- C3 witness. -/
theorem c3_witness :
    (⟨[Shape.other]⟩ : Slide).shapes.all shapeIsOther = true
    ∧ preprocess_ppt ⟨[⟨[Shape.textFrame "A"]⟩, ⟨[Shape.other]⟩, ⟨[Shape.textFrame "B"]⟩]⟩
        = preprocess_ppt ⟨[⟨[Shape.textFrame "A"]⟩, ⟨[Shape.textFrame "B"]⟩]⟩
    ∧ 2 ∉ emittedSlideNumbers gapDeck := by
  have h := c3_skipped_slides_and_numbering [⟨[Shape.textFrame "A"]⟩] [⟨[Shape.textFrame "B"]⟩]
    ⟨[Shape.other]⟩ gapDeck (fun _ => "") (by decide)
  exact ⟨by decide, h.1, h.2.1⟩

/-- C4: split_prompt flushes the running buffer exactly when the buffer
length plus the next serialized entry length exceeds max_chars, and
flushes the final non-empty buffer after the loop: entries of
serialized lengths 30 and 40 with max_chars 50 land in two separate
chunks; two entries whose serialized lengths sum to at most 50 (the
case the claim instantiates with lengths 10 and 10) are merged into a
single chunk; and a single entry longer than max_chars is still placed
whole into a chunk of its own, which therefore exceeds the limit. -/
theorem c4_split_prompt_flush_policy
    (e1 e2 f1 f2 g : SplitEntry) (mc : Nat)
    (h1 : (entryText e1).length = 30) (h2 : (entryText e2).length = 40)
    (h3 : (entryText f1).length + (entryText f2).length ≤ 50)
    (h4 : mc < (entryText g).length) :
    split_prompt [e1, e2] 50 = [entryText e1, entryText e2]
    ∧ split_prompt [f1, f2] 50 = [entryText f1 ++ entryText f2]
    ∧ entryText g ∈ split_prompt [g] mc := by
  refine ⟨?_, ?_, ?_⟩
  · simp [split_prompt, splitStep, str_empty_append, h1, h2, entryText_ne_empty]
  · have hp1 := entryText_length_pos f1
    have hp2 := entryText_length_pos f2
    have hn1 : ¬ (50 < (entryText f1).length) := by omega
    have hn2 : ¬ (50 < (entryText f1).length + (entryText f2).length) := by omega
    have hne : entryText f1 ++ entryText f2 ≠ "" :=
      string_ne_empty_of_length_pos (by rw [String.length_append]; omega)
    simp [split_prompt, splitStep, str_empty_append, hn1, hn2, hne]
  · simp [split_prompt, splitStep, str_empty_append, h4, entryText_ne_empty]

/-- C4 witness. -/
theorem c4_witness :
    (entryText ⟨"123456789012345", none⟩).length = 30
    ∧ (entryText ⟨"1234567890123456789012345", none⟩).length = 40
    ∧ split_prompt [⟨"123456789012345", none⟩, ⟨"1234567890123456789012345", none⟩] 50
        = [entryText ⟨"123456789012345", none⟩, entryText ⟨"1234567890123456789012345", none⟩]
    ∧ split_prompt [⟨"a", none⟩, ⟨"b", none⟩] 50
        = [entryText ⟨"a", none⟩ ++ entryText ⟨"b", none⟩]
    ∧ entryText ⟨"123456789012345", none⟩ ∈ split_prompt [⟨"123456789012345", none⟩] 7 := by
  have h := c4_split_prompt_flush_policy ⟨"123456789012345", none⟩
    ⟨"1234567890123456789012345", none⟩ ⟨"a", none⟩ ⟨"b", none⟩
    ⟨"123456789012345", none⟩ 7 (by decide) (by decide) (by decide) (by decide)
  exact ⟨by decide, by decide, h.1, h.2.1, h.2.2⟩

/-- C5 counterexample: a table shape consisting solely of a header row
does contribute an entry — a DataFrame carrying that header and an
empty body — refuting the claim that such a shape contributes no
entry. -/
theorem c5_counterexample :
    extract_tables_from_slide ⟨[Shape.table [["Region", "Sales"]]]⟩
      = [⟨["Region", "Sales"], []⟩]
    ∧ extract_tables_from_slide ⟨[Shape.table [["Region", "Sales"]]]⟩ ≠ [] :=
  ⟨rfl, by decide⟩

/-- C5 amended: extract_tables_from_slide skips exactly the table
shapes with zero rows; every table shape with at least one row,
including a header-only table, contributes one entry whose columns are
the first row and whose body is the remaining rows. -/
theorem c5_table_entry_condition
    (pre post : List Shape) (rows : RawTable) (h : rows ≠ []) :
    extract_tables_from_slide ⟨pre ++ Shape.table [] :: post⟩
      = extract_tables_from_slide ⟨pre ++ post⟩
    ∧ extract_tables_from_slide ⟨pre ++ Shape.table rows :: post⟩
      = extract_tables_from_slide ⟨pre⟩
          ++ ⟨rows.headD [], rows.tail⟩ :: extract_tables_from_slide ⟨post⟩ := by
  constructor
  · simp [extract_tables_from_slide, List.filterMap_append, List.filterMap_cons]
  · simp [extract_tables_from_slide, List.filterMap_append, List.filterMap_cons, h]

/-- C5 witness. -/
theorem c5_witness :
    ([["a", "b"], ["1", "2"]] : RawTable) ≠ []
    ∧ extract_tables_from_slide ⟨[Shape.other, Shape.table [], Shape.textFrame "t"]⟩
      = extract_tables_from_slide ⟨[Shape.other, Shape.textFrame "t"]⟩
    ∧ extract_tables_from_slide
        ⟨[Shape.other, Shape.table [["a", "b"], ["1", "2"]], Shape.textFrame "t"]⟩
      = extract_tables_from_slide ⟨[Shape.other]⟩
          ++ ⟨["a", "b"], [["1", "2"]]⟩ :: extract_tables_from_slide ⟨[Shape.textFrame "t"]⟩ := by
  have h := c5_table_entry_condition [Shape.other] [Shape.textFrame "t"]
    [["a", "b"], ["1", "2"]] (by decide)
  exact ⟨by decide, h.1, h.2⟩

/-- C6: for a slide containing a table with n rows (n positive) and a
consistent column count across rows, extract_tables_from_slide returns
for that table a DataFrame whose body row count equals n - 1 and whose
columns equal row 0 of the input table. -/
theorem c6_table_header_and_body_count
    (pre post : List Shape) (rows : RawTable) (n : Nat)
    (hlen : rows.length = n) (hpos : 0 < n)
    (hcols : ∀ r ∈ rows, r.length = (rows.headD []).length) :
    ∃ df : DataFrame,
      extract_tables_from_slide ⟨pre ++ Shape.table rows :: post⟩
        = extract_tables_from_slide ⟨pre⟩ ++ df :: extract_tables_from_slide ⟨post⟩
      ∧ df.body.length = n - 1
      ∧ rows.head? = some df.columns := by
  have hne : rows ≠ [] := by
    intro he
    subst he
    simp at hlen
    omega
  obtain ⟨hd, tl, rfl⟩ := List.exists_cons_of_ne_nil hne
  refine ⟨⟨hd, tl⟩, ?_, ?_, rfl⟩
  · simp [extract_tables_from_slide, List.filterMap_append, List.filterMap_cons]
  · simp only [List.length_cons] at hlen
    simp
    omega

/-- C6 witness. -/
theorem c6_witness :
    ([["a", "b"], ["1", "2"], ["3", "4"]] : RawTable).length = 3
    ∧ ∃ df : DataFrame,
        extract_tables_from_slide ⟨[] ++ Shape.table [["a", "b"], ["1", "2"], ["3", "4"]] :: []⟩
          = extract_tables_from_slide ⟨[]⟩ ++ df :: extract_tables_from_slide ⟨[]⟩
        ∧ df.body.length = 3 - 1
        ∧ ([["a", "b"], ["1", "2"], ["3", "4"]] : RawTable).head? = some df.columns :=
  ⟨by decide, c6_table_header_and_body_count [] [] [["a", "b"], ["1", "2"], ["3", "4"]] 3
    (by decide) (by decide) (by decide)⟩

/-- C7: preprocess_ppt skips a slide that has neither text items nor
tables; otherwise its record has as title the first stripped text item
(the sentinel Untitled Slide when no text frame exists) and as content
the remaining text items joined by single spaces — the empty string
when there are fewer than two text items.  The two concrete conjuncts
check the Q3 Report example and the single-text-item case. -/
theorem c7_preprocess_record_fields
    (s1 s2 : List Slide) (sle slf : Slide) (t : String)
    (h1 : slideTexts sle = []) (h2 : slideTables sle = [])
    (h3 : slideTexts slf ≠ [] ∨ slideTables slf ≠ []) :
    preprocess_ppt ⟨s1 ++ sle :: s2⟩ = preprocess_ppt ⟨s1 ++ s2⟩
    ∧ preprocess_ppt ⟨s1 ++ slf :: s2⟩
        = preprocess_ppt ⟨s1⟩
            ++ ⟨(slideTexts slf).headD "Untitled Slide",
                if 1 < (slideTexts slf).length
                  then String.intercalate " " ((slideTexts slf).drop 1) else "",
                slideTables slf⟩ :: preprocess_ppt ⟨s2⟩
    ∧ preprocessSlide ⟨[Shape.textFrame "Q3 Report", Shape.textFrame "Intro line"]⟩
        = some ⟨"Q3 Report", "Intro line", []⟩
    ∧ preprocessSlide ⟨[Shape.textFrame t]⟩ = some ⟨pyStrip t, "", []⟩ := by
  have hnone : preprocessSlide sle = none := by
    simp [preprocessSlide, h1, h2]
  have hsome : preprocessSlide slf
      = some ⟨(slideTexts slf).headD "Untitled Slide",
          if 1 < (slideTexts slf).length
            then String.intercalate " " ((slideTexts slf).drop 1) else "",
          slideTables slf⟩ := by
    simp only [preprocessSlide]
    rw [if_pos h3]
  refine ⟨?_, ?_, rfl, rfl⟩
  · simp [preprocess_ppt, List.filterMap_append, List.filterMap_cons, hnone]
  · simp [preprocess_ppt, List.filterMap_append, List.filterMap_cons, hsome]

/-- C7 witness. -/
theorem c7_witness :
    slideTexts ⟨[Shape.other]⟩ = []
    ∧ (slideTexts ⟨[Shape.textFrame "A"]⟩ ≠ [] ∨ slideTables ⟨[Shape.textFrame "A"]⟩ ≠ [])
    ∧ preprocess_ppt ⟨[⟨[Shape.other]⟩]⟩ = preprocess_ppt ⟨[]⟩
    ∧ preprocessSlide ⟨[Shape.textFrame " padded "]⟩ = some ⟨"padded", "", []⟩ := by
  have h := c7_preprocess_record_fields [] [] ⟨[Shape.other]⟩ ⟨[Shape.textFrame "A"]⟩
    " padded " (by decide) (by decide) (Or.inl (by decide))
  exact ⟨by decide, Or.inl (by decide), h.1, h.2.2.2⟩

/-- C8: when the directory listing fails, or lists no file whose name
ends in .pptx, both summarization entry points return the
null-equivalent none; as total functions into Option they let no
exception escape. -/
theorem c8_missing_pptx_returns_none
    (env : Env) (rid : String)
    (h : ∀ files, env.listdir = Except.ok files → findPptx files = none) :
    (summarize_with_bedrock_titan env rid).1 = none
    ∧ (ppt_summarization env rid).1 = none := by
  cases hl : env.listdir with
  | error u =>
    constructor <;> simp [summarize_with_bedrock_titan, ppt_summarization, hl]
  | ok files =>
    have hf := h files hl
    constructor <;> simp [summarize_with_bedrock_titan, ppt_summarization, hl, hf]

/-- C8 witness. -/
theorem c8_witness :
    (summarize_with_bedrock_titan noPptxEnv "r7").1 = none
    ∧ (ppt_summarization noPptxEnv "r7").1 = none :=
  c8_missing_pptx_returns_none noPptxEnv "r7" (fun files h => by
    simp only [noPptxEnv] at h
    cases h
    decide)

/-- C9: when preprocess_ppt yields the empty list, both summarization
entry points return none with the provider-call flag still false: the
network text-generation call is never reached. -/
theorem c9_empty_extraction_no_provider_call
    (env : Env) (rid f : String) (files : List String) (pres : Presentation)
    (h1 : env.listdir = Except.ok files) (h2 : findPptx files = some f)
    (h3 : env.load (env.baseDir ++ "/" ++ rid ++ "/" ++ f) = Except.ok pres)
    (h4 : preprocess_ppt pres = []) :
    summarize_with_bedrock_titan env rid = (none, false)
    ∧ ppt_summarization env rid = (none, false) := by
  constructor <;> simp [summarize_with_bedrock_titan, ppt_summarization, h1, h2, h3, h4]

/-- C9 witness. -/
theorem c9_witness :
    preprocess_ppt ⟨[⟨[Shape.other]⟩]⟩ = []
    ∧ summarize_with_bedrock_titan emptyDeckEnv "r9" = (none, false)
    ∧ ppt_summarization emptyDeckEnv "r9" = (none, false) := by
  have h := c9_empty_extraction_no_provider_call emptyDeckEnv "r9" "deck.pptx" ["deck.pptx"]
    ⟨[⟨[Shape.other]⟩]⟩ rfl (by decide) rfl (by decide)
  exact ⟨by decide, h.1, h.2⟩

/-- C10: for a non-empty entry list whose first serialized entry alone
exceeds max_chars, the in-loop flush appends the still-empty buffer, so
the first chunk split_prompt returns is the empty string. -/
theorem c10_oversized_first_entry_empty_chunk
    (e : SplitEntry) (rest : List SplitEntry) (mc : Nat)
    (h : mc < (entryText e).length) :
    (split_prompt (e :: rest) mc).head? = some "" := by
  have hstep : splitStep mc ([], "") e = ([""], entryText e) := by
    simp [splitStep, h]
  rw [split_prompt, List.foldl_cons, hstep]
  obtain ⟨tl, c2, hrec⟩ := foldl_splitStep_chunks mc rest [""] (entryText e)
  rw [hrec]
  by_cases hc : c2 = "" <;> simp [hc]

/-- C10 witness. -/
theorem c10_witness :
    7 < (entryText ⟨"123456789012345", none⟩).length
    ∧ (split_prompt [⟨"123456789012345", none⟩] 7).head? = some "" :=
  ⟨by decide, c10_oversized_first_entry_empty_chunk ⟨"123456789012345", none⟩ [] 7 (by decide)⟩

end SlideSage
